import Mathlib

/-!
Verification of `pytorch_lightning/callbacks/timer.py` (the `Timer` callback).

Shallow embedding conventions:
* `datetime` instants and `timedelta` spans are modelled as `Int` (seconds);
  subtraction of instants yields a span, exactly as in the source arithmetic.
* The host `Trainer` is reduced to the one field the callback touches,
  `should_stop`; the host's cross-process primitive
  `training_type_plugin.reduce_boolean_decision` is passed to the hooks as an
  opaque function `reduce : Bool → Bool`.
* Fallible construction returns `Except`: Python's `ValueError` raised by
  `datetime.strptime` and the `MisconfigurationException` raised by
  `Timer.__init__` become the two constructors of `TimerInitError`.
* `rank_zero_info` logging is modelled as a list of emitted lines.
-/

namespace TimerSpec

/-- Characters removed by Python `str.strip()`: CPython's `Py_UNICODE_ISSPACE`
set, i.e. U+0009–U+000D, U+001C–U+001F, space, U+0085, U+00A0, U+1680,
U+2000–U+200A, U+2028, U+2029, U+202F, U+205F and U+3000. -/
def isPyWhitespace (c : Char) : Bool :=
  let n := c.toNat
  decide ((9 ≤ n ∧ n ≤ 13) ∨ (28 ≤ n ∧ n ≤ 31) ∨ n = 32 ∨ n = 133 ∨
    n = 160 ∨ n = 5760 ∨ (8192 ≤ n ∧ n ≤ 8202) ∨ n = 8232 ∨ n = 8233 ∨
    n = 8239 ∨ n = 8287 ∨ n = 12288)

/-- Model of Python `str.strip()`: drop leading and trailing whitespace. -/
def pyStrip (s : String) : String :=
  String.mk (((s.toList.dropWhile isPyWhitespace).reverse.dropWhile isPyWhitespace).reverse)

/-- Split a character list on a separator character (like `str.split(sep)`). -/
def splitOnChar (sep : Char) : List Char → List (List Char)
  | [] => [[]]
  | c :: rest =>
    if c = sep then [] :: splitOnChar sep rest
    else
      match splitOnChar sep rest with
      | [] => [[c]]
      | g :: gs => (c :: g) :: gs

/-- Parse one numeric field of `strptime`: one or two ASCII digits whose value
is at most `hi` (Python's `%H` pattern is `2[0-3]|[0-1]\d|\d` and `%M` is
`[0-5]\d|\d`; `%S` matches up to 61, but see `strptimeHMS`). -/
def fieldToNat (hi : Nat) (cs : List Char) : Option Nat :=
  if cs ≠ [] ∧ cs.length ≤ 2 ∧ cs.all Char.isDigit then
    let n := cs.foldl (fun a c => a * 10 + (c.toNat - 48)) 0
    if n ≤ hi then some n else none
  else none

/-- Model of `datetime.strptime(s, "%H:%M:%S")`: the whole string must be
hour, minute and second fields separated by colons; `none` models the
`ValueError` Python raises on a mismatch. The seconds field is bounded by 59,
not by the 61 of the `%S` regex: after the regex match, `datetime.strptime`
builds a `datetime`, whose constructor raises `ValueError` for the leap
seconds 60 and 61, so they are rejected overall. -/
def strptimeHMS (s : String) : Option (Nat × Nat × Nat) :=
  match splitOnChar ':' s.toList with
  | [h, m, sec] => do
    let hv ← fieldToNat 23 h
    let mv ← fieldToNat 59 m
    let sv ← fieldToNat 59 sec
    pure (hv, mv, sv)
  | _ => none

/-- The `duration` argument of `Timer.__init__`: a string or a `timedelta`. -/
inductive DurationArg where
  | str (s : String)
  | td (seconds : Int)
deriving DecidableEq, Repr

/-- Errors that `Timer.__init__` can raise. -/
inductive TimerInitError where
  | valueError
  | misconfiguration (msg : String)
deriving DecidableEq, Repr

/-- `Timer.INTERVAL_CHOICES`. -/
def INTERVAL_CHOICES : List String := ["epoch", "step"]

/-- The message of the `MisconfigurationException` raised for a bad interval. -/
def misconfigMsg (interval : String) : String :=
  "Unsupported parameter value `Timer(interval=" ++ interval ++
    ")`. Possible choices are: " ++ String.intercalate ", " INTERVAL_CHOICES

/-- State of a constructed `Timer` callback (fields `_duration`, `_interval`,
`_verbose`, `_start_time`, `_offset` of the Python object). -/
structure Timer where
  duration : Int
  interval : String
  verbose : Bool
  start_time : Option Int
  offset : Int
deriving DecidableEq, Repr

/-- The duration-normalising first half of `Timer.__init__`: a string is
stripped and parsed with `strptime`, then turned into
`timedelta(hours, minutes, seconds)`; a `timedelta` passes through. -/
def parseDurationArg : DurationArg → Except TimerInitError Int
  | .str s =>
    match strptimeHMS (pyStrip s) with
    | some (h, m, sec) => .ok ((h * 3600 + m * 60 + sec : Nat) : Int)
    | none => .error .valueError
  | .td d => .ok d

/-- Model of `Timer.__init__`: parse the duration (raising `ValueError` on a
malformed string), then validate `interval`, then initialise the fields. -/
def Timer.init (duration : DurationArg) (interval : String) (verbose : Bool) :
    Except TimerInitError Timer :=
  match parseDurationArg duration with
  | .error e => .error e
  | .ok d =>
    if INTERVAL_CHOICES.contains interval then
      .ok { duration := d, interval := interval, verbose := verbose,
            start_time := none, offset := 0 }
    else
      .error (.misconfiguration (misconfigMsg interval))

/-- Property `Timer.time_elapsed`, as a function of the current wall clock. -/
def Timer.time_elapsed (t : Timer) (now : Int) : Int :=
  match t.start_time with
  | none => t.offset
  | some s => now - s + t.offset

/-- Property `Timer.time_remaining`. -/
def Timer.time_remaining (t : Timer) (now : Int) : Int :=
  t.duration - t.time_elapsed now

/-- Hook `Timer.on_train_start`: record the current wall clock. -/
def Timer.on_train_start (t : Timer) (now : Int) : Timer :=
  { t with start_time := some now }

/-- The one field of the host `Trainer` the callback reads and writes. -/
structure Trainer where
  should_stop : Bool
deriving DecidableEq, Repr

/-- Result of an event hook: the callback state, the host state, and the log
lines emitted through `rank_zero_info`. -/
structure HookResult where
  timer : Timer
  trainer : Trainer
  log : List String
deriving DecidableEq, Repr

/-- Model of `Timer._check_time_remaining`: compare elapsed time with the
duration, pass the decision through the host's boolean reduction, then OR it
into `trainer.should_stop`; log one line if stopping and verbose. -/
def Timer.check_time_remaining (t : Timer) (reduce : Bool → Bool)
    (tr : Trainer) (now : Int) : Trainer × List String :=
  let should_stop := decide (t.time_elapsed now ≥ t.duration)
  let should_stop := reduce should_stop
  ({ should_stop := tr.should_stop || should_stop },
   if should_stop && t.verbose then
     ["Time limit reached. Signaling Trainer to stop."]
   else [])

/-- Hook `Timer.on_train_batch_end`: return unchanged unless interval is
"step", otherwise run the time check. -/
def Timer.on_train_batch_end (t : Timer) (reduce : Bool → Bool)
    (tr : Trainer) (now : Int) : HookResult :=
  if t.interval ≠ "step" then ⟨t, tr, []⟩
  else
    let r := t.check_time_remaining reduce tr now
    ⟨t, r.1, r.2⟩

/-- Hook `Timer.on_train_epoch_end`: return unchanged unless interval is
"epoch", otherwise run the time check. -/
def Timer.on_train_epoch_end (t : Timer) (reduce : Bool → Bool)
    (tr : Trainer) (now : Int) : HookResult :=
  if t.interval ≠ "epoch" then ⟨t, tr, []⟩
  else
    let r := t.check_time_remaining reduce tr now
    ⟨t, r.1, r.2⟩

/-- Hook `Timer.on_save_checkpoint`: the persisted callback state. -/
def Timer.on_save_checkpoint (t : Timer) (now : Int) : List (String × Int) :=
  [("time_elapsed", t.time_elapsed now)]

/-- Hook `Timer.on_load_checkpoint`: restore the offset from the persisted
state, defaulting to a zero span when the key is absent. -/
def Timer.on_load_checkpoint (t : Timer) (callback_state : List (String × Int)) :
    Timer :=
  { t with offset := (callback_state.lookup "time_elapsed").getD 0 }

/-- A concrete timer used by witnesses: duration 5 s, step interval, started
at instant 0. -/
def tStep : Timer :=
  { duration := 5, interval := "step", verbose := true,
    start_time := some 0, offset := 0 }

/-- A concrete timer used by witnesses: duration 5 s, epoch interval, started
at instant 0. -/
def tEpoch : Timer :=
  { duration := 5, interval := "epoch", verbose := true,
    start_time := some 0, offset := 0 }

end TimerSpec

namespace TimerSpec

/-- A freshly constructed timer (duration 5 s, step interval), as produced by
`Timer.init (.td 5) "step" true`; used by witnesses. -/
def tFresh : Timer :=
  { duration := 5, interval := "step", verbose := true,
    start_time := none, offset := 0 }

/-- Fields fixed by a successful construction: `start_time` is `none` and the
offset is zero. -/
theorem Timer.init_ok_fields {d : DurationArg} {iv : String} {v : Bool}
    {t0 : Timer} (h : Timer.init d iv v = .ok t0) :
    t0.start_time = none ∧ t0.offset = 0 := by
  unfold Timer.init at h
  cases hp : parseDurationArg d with
  | error e => simp [hp] at h
  | ok x =>
    simp [hp] at h
    split at h
    · injection h with h2
      subst h2
      exact ⟨rfl, rfl⟩
    · simp at h

end TimerSpec

namespace TimerSpec

/-- Claim C1: after `on_train_start` has recorded a start time, a lifecycle
event matching the interval mode ("step" for batch end, "epoch" for epoch
end) whose elapsed time (offset plus wall time since start) has reached the
duration passes the stop decision through the host's boolean reduction and
sets `trainer.should_stop` to true. -/
theorem matching_event_sets_stop (t : Timer) (reduce : Bool → Bool)
    (tr : Trainer) (s now : Int)
    (hstart : t.start_time = some s)
    (helapsed : t.offset + (now - s) ≥ t.duration)
    (hreduce : reduce true = true) :
    (t.interval = "step" →
      (t.on_train_batch_end reduce tr now).trainer.should_stop = true) ∧
    (t.interval = "epoch" →
      (t.on_train_epoch_end reduce tr now).trainer.should_stop = true) := by
  have he : t.time_elapsed now ≥ t.duration := by
    simp only [Timer.time_elapsed, hstart]
    omega
  have hd : decide (t.time_elapsed now ≥ t.duration) = true := decide_eq_true he
  constructor
  · intro hiv
    simp [Timer.on_train_batch_end, hiv, Timer.check_time_remaining, hd, hreduce]
  · intro hiv
    simp [Timer.on_train_epoch_end, hiv, Timer.check_time_remaining, hd, hreduce]

/-- Witness for C1: the step timer (duration 5, started at 0) stops at a batch
end at instant 6; the epoch timer stops at an epoch end at instant 6. -/
theorem matching_event_sets_stop_witness :
    (tStep.on_train_batch_end id ⟨false⟩ 6).trainer.should_stop = true ∧
    (tEpoch.on_train_epoch_end id ⟨false⟩ 6).trainer.should_stop = true :=
  ⟨(matching_event_sets_stop tStep id ⟨false⟩ 0 6 rfl (by decide) rfl).1 rfl,
   (matching_event_sets_stop tEpoch id ⟨false⟩ 0 6 rfl (by decide) rfl).2 rfl⟩

end TimerSpec

namespace TimerSpec

/-- Claim C2: construction with an interval outside {"epoch", "step"} raises a
`MisconfigurationException` whose message names the allowed choices, while
both allowed intervals construct successfully (given a duration whose
normalisation succeeds, as every `timedelta` does). -/
theorem interval_validation (d : DurationArg) (iv : String) (v : Bool)
    (x : Int) (hparse : parseDurationArg d = .ok x) :
    (iv ≠ "epoch" → iv ≠ "step" →
      Timer.init d iv v = .error (.misconfiguration (misconfigMsg iv)) ∧
      misconfigMsg iv = "Unsupported parameter value `Timer(interval=" ++ iv ++
        ")`. Possible choices are: epoch, step") ∧
    ((iv = "epoch" ∨ iv = "step") → ∃ t, Timer.init d iv v = .ok t) := by
  constructor
  · intro h1 h2
    refine ⟨?_, ?_⟩
    · simp [Timer.init, hparse, INTERVAL_CHOICES, h1, h2]
    · show (_ ++ _) ++ _ = _
      rw [String.append_assoc]
      rfl
  · intro h
    rcases h with h | h
    · subst h
      exact ⟨⟨x, "epoch", v, none, 0⟩,
        by simp [Timer.init, hparse, INTERVAL_CHOICES]⟩
    · subst h
      exact ⟨⟨x, "step", v, none, 0⟩,
        by simp [Timer.init, hparse, INTERVAL_CHOICES]⟩

/-- Witness for C2: `Timer(duration=5s, interval="bogus")` raises the
configuration error; `interval="step"` constructs. -/
theorem interval_validation_witness :
    Timer.init (.td 5) "bogus" true =
      .error (.misconfiguration (misconfigMsg "bogus")) ∧
    ∃ t, Timer.init (.td 5) "step" true = .ok t :=
  ⟨((interval_validation (.td 5) "bogus" true 5 rfl).1
      (by decide) (by decide)).1,
   (interval_validation (.td 5) "step" true 5 rfl).2 (Or.inr rfl)⟩

/-- Claim C3: `on_save_checkpoint` returns the single-key mapping
`time_elapsed ↦ T` where `T` is the current elapsed time, and a freshly
constructed timer that loads that mapping reports elapsed time `T`
immediately, at any wall-clock instant. -/
theorem checkpoint_roundtrip (t t0 : Timer) (now : Int)
    (d : DurationArg) (iv : String) (v : Bool)
    (hfresh : Timer.init d iv v = .ok t0) :
    t.on_save_checkpoint now = [("time_elapsed", t.time_elapsed now)] ∧
    ∀ now2, (t0.on_load_checkpoint (t.on_save_checkpoint now)).time_elapsed
      now2 = t.time_elapsed now := by
  refine ⟨rfl, fun now2 => ?_⟩
  have hs := (Timer.init_ok_fields hfresh).1
  simp [Timer.on_load_checkpoint, Timer.on_save_checkpoint,
    Timer.time_elapsed, hs, List.lookup]

/-- Witness for C3: save the step timer at instant 3 (elapsed 3), load into a
fresh timer, read elapsed at instant 100. -/
theorem checkpoint_roundtrip_witness :
    tStep.on_save_checkpoint 3 = [("time_elapsed", tStep.time_elapsed 3)] ∧
    (tFresh.on_load_checkpoint (tStep.on_save_checkpoint 3)).time_elapsed 100 =
      tStep.time_elapsed 3 :=
  ⟨(checkpoint_roundtrip tStep tFresh 3 (.td 5) "step" true rfl).1,
   (checkpoint_roundtrip tStep tFresh 3 (.td 5) "step" true rfl).2 100⟩

end TimerSpec

namespace TimerSpec

/-- Claim C4: an event whose type does not match the interval mode is a
no-op: the timer, the host trainer and the log are returned unchanged, and
the result does not depend on the reduction primitive (it is never invoked). -/
theorem non_matching_event_noop (t : Timer) (r1 r2 : Bool → Bool)
    (tr : Trainer) (now : Int) :
    (t.interval ≠ "step" →
      t.on_train_batch_end r1 tr now = ⟨t, tr, []⟩ ∧
      t.on_train_batch_end r1 tr now = t.on_train_batch_end r2 tr now) ∧
    (t.interval ≠ "epoch" →
      t.on_train_epoch_end r1 tr now = ⟨t, tr, []⟩ ∧
      t.on_train_epoch_end r1 tr now = t.on_train_epoch_end r2 tr now) := by
  constructor
  · intro h
    simp [Timer.on_train_batch_end, h]
  · intro h
    simp [Timer.on_train_epoch_end, h]

/-- Witness for C4: at instant 6 (past the 5 s duration) a batch end leaves
the epoch-mode timer, trainer and log untouched, and an epoch end likewise
for the step-mode timer. -/
theorem non_matching_event_noop_witness :
    tEpoch.on_train_batch_end id ⟨false⟩ 6 = ⟨tEpoch, ⟨false⟩, []⟩ ∧
    tStep.on_train_epoch_end id ⟨false⟩ 6 = ⟨tStep, ⟨false⟩, []⟩ :=
  ⟨((non_matching_event_noop tEpoch id id ⟨false⟩ 6).1 (by decide)).1,
   ((non_matching_event_noop tStep id id ⟨false⟩ 6).2 (by decide)).1⟩

/-- Claim C5: before a run starts `time_elapsed` equals the offset, which a
fresh construction sets to zero; once running it equals the offset plus the
wall-clock difference from the recorded start time. -/
theorem time_elapsed_characterisation (t : Timer) (now s : Int)
    (d : DurationArg) (iv : String) (v : Bool) (t0 : Timer)
    (hfresh : Timer.init d iv v = .ok t0) :
    (t.start_time = none → t.time_elapsed now = t.offset) ∧
    (t.start_time = some s → t.time_elapsed now = now - s + t.offset) ∧
    (t0.start_time = none ∧ t0.offset = 0 ∧ t0.time_elapsed now = 0) := by
  obtain ⟨h1, h2⟩ := Timer.init_ok_fields hfresh
  refine ⟨fun h => ?_, fun h => ?_, h1, h2, ?_⟩
  · simp [Timer.time_elapsed, h]
  · simp [Timer.time_elapsed, h]
  · simp [Timer.time_elapsed, h1, h2]

/-- Witness for C5: the running step timer at instant 7 reports 7 − 0 + 0,
and the fresh timer reports 0. -/
theorem time_elapsed_characterisation_witness :
    tStep.time_elapsed 7 = 7 - 0 + tStep.offset ∧ tFresh.time_elapsed 7 = 0 :=
  ⟨(time_elapsed_characterisation tStep 7 0 (.td 5) "step" true tFresh
      rfl).2.1 rfl,
   (time_elapsed_characterisation tStep 7 0 (.td 5) "step" true tFresh
      rfl).2.2.2.2⟩

end TimerSpec

namespace TimerSpec

/-- Claim C7: `on_load_checkpoint` sets the offset to the value under the
`time_elapsed` key, defaulting to zero when the key is absent, and changes no
other field. -/
theorem on_load_checkpoint_offset (t : Timer) (st : List (String × Int)) :
    (∀ x, st.lookup "time_elapsed" = some x →
      (t.on_load_checkpoint st).offset = x) ∧
    (st.lookup "time_elapsed" = none → (t.on_load_checkpoint st).offset = 0) ∧
    ((t.on_load_checkpoint st).duration = t.duration ∧
     (t.on_load_checkpoint st).interval = t.interval ∧
     (t.on_load_checkpoint st).verbose = t.verbose ∧
     (t.on_load_checkpoint st).start_time = t.start_time) := by
  refine ⟨fun x hx => ?_, fun hx => ?_, rfl, rfl, rfl, rfl⟩
  · simp [Timer.on_load_checkpoint, hx]
  · simp [Timer.on_load_checkpoint, hx]

/-- Witness for C7: loading `[(time_elapsed, 42)]` sets the offset to 42;
loading an empty state sets it to 0. -/
theorem on_load_checkpoint_offset_witness :
    (tStep.on_load_checkpoint [("time_elapsed", 42)]).offset = 42 ∧
    (tStep.on_load_checkpoint []).offset = 0 :=
  ⟨(on_load_checkpoint_offset tStep [("time_elapsed", 42)]).1 42 rfl,
   (on_load_checkpoint_offset tStep []).2.1 rfl⟩

/-- Claim C8: within a run (after `on_train_start` records a start instant,
with no intervening checkpoint load), `time_elapsed` is monotonically
non-decreasing in the wall clock. -/
theorem time_elapsed_monotonic (t : Timer) (tstart t1 t2 : Int)
    (h : t1 ≤ t2) :
    (t.on_train_start tstart).time_elapsed t1 ≤
      (t.on_train_start tstart).time_elapsed t2 := by
  simp only [Timer.on_train_start, Timer.time_elapsed]
  omega

/-- Witness for C8: after starting the fresh timer at 0, elapsed at 3 is at
most elapsed at 4. -/
theorem time_elapsed_monotonic_witness :
    (tFresh.on_train_start 0).time_elapsed 3 ≤
      (tFresh.on_train_start 0).time_elapsed 4 :=
  time_elapsed_monotonic tFresh 0 3 4 (by decide)

end TimerSpec

namespace TimerSpec

/-- Claim C9: the time check never clears a stop request: if
`trainer.should_stop` is already true, it stays true after
`_check_time_remaining` and after either event hook, for every elapsed time
and every result of the boolean reduction. -/
theorem stop_request_never_cleared (t : Timer) (reduce : Bool → Bool)
    (tr : Trainer) (now : Int) (h : tr.should_stop = true) :
    ((t.check_time_remaining reduce tr now).1.should_stop = true) ∧
    ((t.on_train_batch_end reduce tr now).trainer.should_stop = true) ∧
    ((t.on_train_epoch_end reduce tr now).trainer.should_stop = true) := by
  refine ⟨?_, ?_, ?_⟩
  · simp [Timer.check_time_remaining, h]
  · unfold Timer.on_train_batch_end
    split
    · exact h
    · simp [Timer.check_time_remaining, h]
  · unfold Timer.on_train_epoch_end
    split
    · exact h
    · simp [Timer.check_time_remaining, h]

/-- Witness for C9: with a reduction that always answers false and elapsed
time 0 (below the duration), a batch end keeps an already-set stop flag. -/
theorem stop_request_never_cleared_witness :
    (tStep.on_train_batch_end (fun _ => false) ⟨true⟩ 0).trainer.should_stop =
      true :=
  (stop_request_never_cleared tStep (fun _ => false) ⟨true⟩ 0 rfl).2.1

/-- Claim C10: `time_remaining` is exactly the duration minus the elapsed
time, with no clamping: once elapsed time exceeds the duration it is
negative. -/
theorem time_remaining_unclamped (t : Timer) (now : Int) :
    t.time_remaining now = t.duration - t.time_elapsed now ∧
    (t.time_elapsed now > t.duration → t.time_remaining now < 0) := by
  refine ⟨rfl, fun h => ?_⟩
  unfold Timer.time_remaining
  omega

/-- Witness for C10: the step timer at instant 100 has elapsed 100 > 5, and
remaining time is negative. -/
theorem time_remaining_unclamped_witness : tStep.time_remaining 100 < 0 :=
  (time_remaining_unclamped tStep 100).2 (by decide)

end TimerSpec
